import Mathlib

/-!
Shallow embedding of the student-records REST API (Flask/peewee project).

The repository contains several iterative variants of the same API:
  * `app.py`                                  — plain handlers, no validation (namespace `App`);
  * `blueprints/students/students_routes.py`  — handlers with pydantic validation (namespace `BP`);
  * `api/routes/students.py`                  — apiflask handlers with JWT auth (namespace `ApiR`);
  * `api/auth.py`                             — JWT issuance/verification (namespace `Auth`);
  * `keys.py`                                 — static API-key store (namespace `Keys`).

The relational state (SQLite through peewee) is modelled as in-memory lists of
rows; a handler is a function from the database value and a request to a
response, returning the new database value, and — where a claim needs it — the
list of SQL queries the handler actually executed.
-/

/-- A row of the `groups` table (`models.py`, class `Group`): surrogate id and
the unique `group_name`.  The other columns (`start_date`, `end_date`,
`profession`) are never read by the handlers under analysis and are omitted. -/
structure GroupRow where
  id : Nat
  group_name : String
deriving DecidableEq

/-- A row of the `students` table (`models.py`, class `Student`):
`first_name`, optional `middle_name`, `last_name`, optional `age`, and a
nullable foreign key to `groups` (stored as the group's id). -/
structure StudentRow where
  id : Nat
  first_name : String
  middle_name : Option String
  last_name : String
  age : Option Int
  group : Option Nat
deriving DecidableEq

/-- The database state: the `students` and `groups` tables. -/
structure DB where
  students : List StudentRow
  groups : List GroupRow
deriving DecidableEq

/-- The serialized student shape every handler produces:
`{id, name (first+last), group (name or null), age, middle_name}`. -/
structure StudentOut where
  id : Nat
  name : String
  group : Option String
  age : Option Int
  middle_name : Option String
deriving DecidableEq

/-- JSON response bodies produced by the handlers: a single student object, a
`{success, students: [...]}` list, a `{message: ...}` object, an
`{error: ...}` object, or a validation-error body enumerating violations. -/
inductive RespBody where
  | student (s : StudentOut)
  | students (l : List StudentOut)
  | message (m : String)
  | error (m : String)
  | errors (es : List String)
deriving DecidableEq

/-- An HTTP response: status code and JSON body. -/
structure Resp where
  status : Nat
  body : RespBody
deriving DecidableEq

/-- A database query actually executed by a handler (peewee executes
`Group.get` eagerly; a `Student.select()` chain only runs when iterated). -/
inductive Query where
  | groupGet (name : String)
  | studentsSelect
deriving DecidableEq

/-- Embeds `Group.get(Group.group_name == name)`: first row with the given (unique)
group name, if any. -/
def findGroup (db : DB) (name : String) : Option GroupRow :=
  db.groups.find? (fun g => g.group_name == name)

/-- Embeds `Group.get_by_id(gid)` / lazy foreign-key resolution by the group's id. -/
def findGroupById (db : DB) (gid : Nat) : Option GroupRow :=
  db.groups.find? (fun g => g.id == gid)

/-- The id SQLite assigns to a freshly inserted student row
(max existing rowid + 1). -/
def nextId (db : DB) : Nat :=
  (db.students.map (fun s => s.id)).foldr Nat.max 0 + 1

/-- The serialization used by the read handlers: the student's group name is
resolved lazily through its foreign key, as `student.group.group_name if
student.group else None`. -/
def serializeStudent (db : DB) (s : StudentRow) : StudentOut :=
  { id := s.id
    name := s.first_name ++ " " ++ s.last_name
    group := (s.group.bind (findGroupById db)).map (fun g => g.group_name)
    age := s.age
    middle_name := s.middle_name }

/-- The JSON body of a create/update student request, as the fields the
handlers read from it (`data.get(...)`; `none` = key absent). -/
structure StudentPayload where
  first_name : Option String
  middle_name : Option String
  last_name : Option String
  age : Option Int
  group : Option String
deriving DecidableEq

namespace App

/-- Handler `app.py` `get_student_by_id(id)`: `Student.get(Student.id == id)`,
serialized on success, `404 {"error": "Студент не найден"}` on
`Student.DoesNotExist`. -/
def get_student_by_id (db : DB) (id : Nat) : Resp :=
  match db.students.find? (fun s => s.id == id) with
  | none => ⟨404, RespBody.error "Студент не найден"⟩
  | some s => ⟨200, RespBody.student (serializeStudent db s)⟩

/-- Handler `app.py` `create_student()`: empty body → 400; a supplied `group` name is
resolved with `Group.get` (404 `"Группа не найдена"` if absent) while copying
the payload fields; then the required fields `first_name`, `last_name`, `age`,
`group` are checked (400 if any is missing); finally `Student.create(**data)`
inserts the row and the handler returns 201 with the serialized student,
whose group object is the one fetched during resolution. -/
def create_student (db : DB) (data : Option StudentPayload) : Resp × DB :=
  match data with
  | none => (⟨400, RespBody.error "Нет данных для создания студента"⟩, db)
  | some d =>
    match d.group with
    | none => (⟨400, RespBody.error "Не все обязательные данные предоставлены"⟩, db)
    | some gname =>
      match findGroup db gname with
      | none => (⟨404, RespBody.error "Группа не найдена"⟩, db)
      | some g =>
        match d.first_name, d.last_name, d.age with
        | some fn, some ln, some ag =>
          let sid := nextId db
          let st : StudentRow :=
            { id := sid, first_name := fn, middle_name := d.middle_name
              last_name := ln, age := some ag, group := some g.id }
          (⟨201, RespBody.student
              { id := sid, name := fn ++ " " ++ ln, group := some g.group_name
                age := some ag, middle_name := d.middle_name }⟩,
           { db with students := db.students ++ [st] })
        | _, _, _ =>
          (⟨400, RespBody.error "Не все обязательные данные предоставлены"⟩, db)

/-- Handler `app.py` `delete_student(id)`: 404 if the id is absent, else
`student.delete_instance()` (DELETE WHERE id = pk) and a success message. -/
def delete_student (db : DB) (id : Nat) : Resp × DB :=
  match db.students.find? (fun s => s.id == id) with
  | none => (⟨404, RespBody.error "Студент не найден"⟩, db)
  | some _ =>
    (⟨200, RespBody.message "Студент успешно удален"⟩,
     { db with students := db.students.filter (fun s => s.id != id) })

end App

namespace BP

/-- One pydantic `Field` check for a string field of `StudentValidator`
(`validators.py`): required, `min_length=3`, `max_length=30`.  Returns the
list of violations for that field (pydantic reports every violating field). -/
def checkStr (fieldName : String) : Option String → List String
  | none => [fieldName ++ ": Field required"]
  | some s =>
    if s.length < 3 then [fieldName ++ ": String should have at least 3 characters"]
    else if 30 < s.length then [fieldName ++ ": String should have at most 30 characters"]
    else []

/-- The pydantic check for `age: int = Field(gt=0, le=120)`. -/
def checkAge : Option Int → List String
  | none => ["age: Field required"]
  | some a =>
    if a ≤ 0 then ["age: Input should be greater than 0"]
    else if 120 < a then ["age: Input should be less than or equal to 120"]
    else []

/-- All violations of `StudentValidator` on a payload, in field-declaration
order: `first_name`, `last_name`, `middle_name`, `age`, `group`. -/
def fieldErrors (d : StudentPayload) : List String :=
  checkStr "first_name" d.first_name ++ checkStr "last_name" d.last_name ++
    checkStr "middle_name" d.middle_name ++ checkAge d.age ++ checkStr "group" d.group

/-- A payload accepted by `StudentValidator`: all five fields present and
within their declared bounds. -/
structure ValidStudent where
  first_name : String
  last_name : String
  middle_name : String
  age : Int
  group : String
deriving DecidableEq

/-- Embeds `StudentValidator(**data)` (`validators.py`): succeeds with the validated
fields, or raises `pydantic.ValidationError` carrying every violation. -/
def StudentValidator (d : StudentPayload) : Except (List String) ValidStudent :=
  match d.first_name, d.last_name, d.middle_name, d.age, d.group with
  | some fn, some ln, some mn, some ag, some gp =>
    if fieldErrors d = [] then Except.ok ⟨fn, ln, mn, ag, gp⟩
    else Except.error (fieldErrors d)
  | _, _, _, _, _ => Except.error (fieldErrors d)

/-- Handler `students_routes.py` `create_student()`: empty body → 400; the payload is
validated with `StudentValidator` (pydantic failure → 400 enumerating the
violations); the validated `group` name is resolved with `Group.get`
(404 `"Группа не найдена"` if absent); then `Student.create(**data)` inserts
the row and the handler returns 201 with the serialized student. -/
def create_student (db : DB) (data : Option StudentPayload) : Resp × DB :=
  match data with
  | none => (⟨400, RespBody.error "Нет данных для создания студента"⟩, db)
  | some d =>
    match StudentValidator d with
    | Except.error es => (⟨400, RespBody.errors es⟩, db)
    | Except.ok v =>
      match findGroup db v.group with
      | none => (⟨404, RespBody.error "Группа не найдена"⟩, db)
      | some g =>
        let sid := nextId db
        let st : StudentRow :=
          { id := sid, first_name := v.first_name, middle_name := some v.middle_name
            last_name := v.last_name, age := some v.age, group := some g.id }
        (⟨201, RespBody.student
            { id := sid, name := v.first_name ++ " " ++ v.last_name
              group := some g.group_name, age := some v.age
              middle_name := some v.middle_name }⟩,
         { db with students := db.students ++ [st] })

/-- Handler `students_routes.py` `update_student(id)`: 404 if the id is absent; empty
body → 400; the payload is validated with `StudentValidator` (failure → 400
enumerating the violations); the `group` name is resolved (404 if absent);
then every field of the row is overwritten and `student.save()` persists it,
returning 200 with the serialized student. -/
def update_student (db : DB) (id : Nat) (data : Option StudentPayload) : Resp × DB :=
  match db.students.find? (fun s => s.id == id) with
  | none => (⟨404, RespBody.error "Студент не найден"⟩, db)
  | some s =>
    match data with
    | none => (⟨400, RespBody.error "Нет данных для обновления студента"⟩, db)
    | some d =>
      match StudentValidator d with
      | Except.error es => (⟨400, RespBody.errors es⟩, db)
      | Except.ok v =>
        match findGroup db v.group with
        | none => (⟨404, RespBody.error "Группа не найдена"⟩, db)
        | some g =>
          let s2 : StudentRow :=
            { id := s.id, first_name := v.first_name, middle_name := some v.middle_name
              last_name := v.last_name, age := some v.age, group := some g.id }
          (⟨200, RespBody.student
              { id := s.id, name := v.first_name ++ " " ++ v.last_name
                group := some g.group_name, age := some v.age
                middle_name := some v.middle_name }⟩,
           { db with students := db.students.map (fun t => if t.id == id then s2 else t) })

end BP

namespace ApiR

/-- The `StudentCreateSchema` body of `api/routes/students.py`: `first_name`
and `last_name` required, optional `middle_name`, `age` and `group_id`. -/
structure ApiStudentPayload where
  first_name : String
  last_name : String
  middle_name : Option String
  age : Option Int
  group_id : Option Nat
deriving DecidableEq

/-- Exceptions that escape the `with atomic():` block of
`api/routes/students.py` `create_student`: apiflask's `HTTPError` raised by
`abort(status, message)` (a subclass of `Exception`), and peewee's
`DoesNotExist` raised when resolving a foreign key whose target row is
absent. -/
inductive ApiErr where
  | httpError (status : Nat) (message : String)
  | doesNotExist
deriving DecidableEq

/-- The insert-and-return tail of the `create_student` body:
`Student.create(..., group=group_id)` followed by building the response dict.
Evaluating `student.group.group_name if student.group else None` touches the
foreign key: a null FK serializes to `None`, while a set FK is fetched lazily
and raises `DoesNotExist` when no such group row exists (which happens when a
falsy `group_id` of `0` skipped the existence check). -/
def insertStudent (db : DB) (d : ApiStudentPayload) : Except ApiErr (Resp × DB) :=
  let sid := nextId db
  let st : StudentRow :=
    { id := sid, first_name := d.first_name, middle_name := d.middle_name
      last_name := d.last_name, age := d.age, group := d.group_id }
  let db2 : DB := { db with students := db.students ++ [st] }
  match st.group with
  | none =>
    Except.ok (⟨201, RespBody.student
        ⟨sid, d.first_name ++ " " ++ d.last_name, none, d.age, d.middle_name⟩⟩, db2)
  | some gid =>
    match findGroupById db2 gid with
    | none => Except.error ApiErr.doesNotExist
    | some g =>
      Except.ok (⟨201, RespBody.student
          ⟨sid, d.first_name ++ " " ++ d.last_name, some g.group_name, d.age,
           d.middle_name⟩⟩, db2)

/-- The body of `create_student(data)` inside `with atomic():`, up to the
exception handler: `if group_id:` (so a missing or zero `group_id` skips the
check) the group is looked up by id, and a missing group raises
`abort(400, "Группа с ID {gid} не найдена")` before any insert; otherwise
the student row is inserted and serialized (which may itself raise
`DoesNotExist`, see `insertStudent`).  An error means the transaction rolled
back, leaving the database unchanged. -/
def create_student_body (db : DB) (d : ApiStudentPayload) : Except ApiErr (Resp × DB) :=
  match d.group_id with
  | some gid =>
    if gid == 0 then insertStudent db d
    else
      match findGroupById db gid with
      | none =>
        Except.error (ApiErr.httpError 400
          ("Группа с ID " ++ toString gid ++ " не найдена"))
      | some _ => insertStudent db d
  | none => insertStudent db d

/-- Handler `api/routes/students.py` `create_student(data)`: the body runs in
an atomic transaction under `try/except Exception as e`, and the handler's own
`abort(400, ...)` — like any exception raised inside, `DoesNotExist`
included — is caught there and re-raised as
`abort(400, f"Ошибка при создании студента: {str(e)}")`.  The final response
is therefore always 400 with the wrapped message on any failure, the
transaction having rolled back.  `strOfE` stands for Python's `str(e)` on the
caught exception, whose exact text is defined by the apiflask/peewee
libraries, so the handler is parameterized by it. -/
def create_student (strOfE : ApiErr → String) (db : DB) (d : ApiStudentPayload) :
    Resp × DB :=
  match create_student_body db d with
  | Except.ok r => r
  | Except.error e =>
    (⟨400, RespBody.error ("Ошибка при создании студента: " ++ strOfE e)⟩, db)

end ApiR

/-- Insert into a list sorted by the boolean comparator `le`. -/
def insertLe {α : Type} (le : α → α → Bool) (x : α) : List α → List α
  | [] => [x]
  | y :: ys => if le x y then x :: y :: ys else y :: insertLe le x ys

/-- Sort by the boolean comparator `le` (models the `ORDER BY` the peewee
query compiles to). -/
def sortByLe {α : Type} (le : α → α → Bool) : List α → List α
  | [] => []
  | x :: xs => insertLe le x (sortByLe le xs)

/-- SQLite ordering on a nullable integer column: `NULL` sorts first in
ascending order. -/
def ageLe (a b : Option Int) : Bool :=
  match a, b with
  | none, _ => true
  | some _, none => false
  | some x, some y => x ≤ y

/-- The whitelisted sort fields of `get_students`. -/
inductive SortField where
  | last_name
  | age
  | group
deriving DecidableEq

/-- Embeds `query.order_by(sort_field.asc() / .desc())` followed by iteration:
sorts the selected rows by the chosen field and serializes them.  Sorting by
`group` first performs `query.join(Group)` — an inner join, which keeps only
rows whose group foreign key resolves — and orders by the joined
`Group.group_name`. -/
def applySort (db : DB) (rows : List StudentRow) (f : SortField) (desc : Bool) :
    List StudentOut :=
  match f with
  | SortField.last_name =>
    let le := fun (a b : StudentRow) => decide (a.last_name ≤ b.last_name)
    (sortByLe (if desc then fun a b => le b a else le) rows).map (serializeStudent db)
  | SortField.age =>
    let le := fun (a b : StudentRow) => ageLe a.age b.age
    (sortByLe (if desc then fun a b => le b a else le) rows).map (serializeStudent db)
  | SortField.group =>
    let joined := rows.filterMap
      (fun s => (s.group.bind (findGroupById db)).map (fun g => (s, g)))
    let le := fun (a b : StudentRow × GroupRow) => decide (a.2.group_name ≤ b.2.group_name)
    (sortByLe (if desc then fun a b => le b a else le) joined).map
      (fun p => serializeStudent db p.1)

/-- Python truthiness of an optional query-string value: an absent parameter
and an empty string are both falsy (`if filter_group:` / `if param:`). -/
def truthyOpt : Option String → Option String
  | some s => if s = "" then none else some s
  | none => none

/-- The `if/elif` whitelist dispatch on the sort parameter: any value other
than `last_name`, `age`, `group` selects no field. -/
def sortFieldOf (p : String) : Option SortField :=
  if p = "last_name" then some SortField.last_name
  else if p = "age" then some SortField.age
  else if p = "group" then some SortField.group
  else none

/-- Python `str.lower()` as applied to the `order` query parameter. -/
def strLower (s : String) : String :=
  String.mk (s.data.map Char.toLower)

/-- The tail of `get_students` after the filter stage: the selected `rows`,
the (truthy) sort parameter, the `order` value and the queries already
executed.  An unrecognized sort parameter returns 400 before the student
query runs; otherwise the student query executes and the handler returns 200
with the (possibly sorted) serialized rows, descending exactly when
`order.lower() == "desc"`. -/
def get_students_rest (db : DB) (rows : List StudentRow) (popt : Option String)
    (ord : String) (tr : List Query) : Resp × List Query :=
  match popt with
  | none =>
    (⟨200, RespBody.students (rows.map (serializeStudent db))⟩, tr ++ [Query.studentsSelect])
  | some p =>
    match sortFieldOf p with
    | none => (⟨400, RespBody.error "Некорректный параметр сортировки"⟩, tr)
    | some f =>
      (⟨200, RespBody.students (applySort db rows f (strLower ord == "desc"))⟩,
       tr ++ [Query.studentsSelect])

/-- Handler `get_students()` (identical in `app.py` and
`students_routes.py`): reads `param`, `order` (default `"asc"`) and `filter`;
a truthy `filter` first executes `Group.get` (404 `"Группа не найдена"` if the
group is absent) and restricts the selection to that group; then a truthy
`param` is matched against the whitelist (400 on anything else); sorting is
descending exactly when `order.lower() == "desc"`; finally the student query
runs and the rows are serialized.  The second component records the queries
executed, in order. -/
def get_students (db : DB) (param order filter : Option String) : Resp × List Query :=
  let ord := order.getD "asc"
  match truthyOpt filter with
  | some f =>
    match findGroup db f with
    | none => (⟨404, RespBody.error "Группа не найдена"⟩, [Query.groupGet f])
    | some g =>
      get_students_rest db (db.students.filter (fun s => s.group == some g.id))
        (truthyOpt param) ord [Query.groupGet f]
  | none => get_students_rest db db.students (truthyOpt param) ord []

namespace Auth

/-- A record of the in-memory `users_db` of `api/auth.py`:
`{username, password (pbkdf2 hash), is_admin}`. -/
structure UserRec where
  username : String
  password : String
  is_admin : Bool
deriving DecidableEq

/-- The JWT claims this application reads: `sub`, `exp` (seconds since epoch)
and `is_admin`; each may be absent in an arbitrary token. -/
structure JwtPayload where
  sub : Option String
  exp : Option Nat
  is_admin : Option Bool
deriving DecidableEq

/-- An encoded token: its payload together with the key whose HMAC signed it
(forging a signature without the key is assumed impossible). -/
structure Token where
  payload : JwtPayload
  key : String
deriving DecidableEq

/-- Outcome of `jwt.decode`: the payload, or the exception raised. -/
inductive DecodeResult where
  | ok (p : JwtPayload)
  | expired
  | invalid
deriving DecidableEq

/-- Embeds `jwt.decode(token, key, algorithms=["HS256"])` (PyJWT): a signature made
with a different key raises `InvalidTokenError`; an `exp` claim with
`exp <= now` raises `ExpiredSignatureError` (PyJWT's `_validate_exp` with zero
leeway); a token without `exp` is not expiry-checked. -/
def jwt_decode (t : Token) (key : String) (now : Nat) : DecodeResult :=
  if t.key == key then
    match t.payload.exp with
    | some e => if e ≤ now then DecodeResult.expired else DecodeResult.ok t.payload
    | none => DecodeResult.ok t.payload
  else DecodeResult.invalid

/-- Embeds `generate_token(username)` (`api/auth.py`): payload
`{sub: username, exp: now + JWT_EXPIRATION,
is_admin: users_db.get(username, {}).get("is_admin", False)}`, signed with
the configured secret key.  `udb`, `key`, `cfgExp` and `now` stand for
`users_db`, `config.JWT_SECRET_KEY`, `config.JWT_EXPIRATION` and
`datetime.utcnow()` (in whole seconds, as PyJWT serializes `exp`). -/
def generate_token (udb : List UserRec) (key : String) (cfgExp : Nat) (now : Nat)
    (username : String) : Token :=
  { payload :=
      { sub := some username
        exp := some (now + cfgExp)
        is_admin := some (((udb.find? (fun r => r.username == username)).map
          (fun r => r.is_admin)).getD false) }
    key := key }

/-- The identity `verify_token` returns: `{username, is_admin}`. -/
structure UserData where
  username : String
  is_admin : Bool
deriving DecidableEq

/-- Embeds `verify_token(token)` (`api/auth.py`): decodes the token (returning `none`
on `ExpiredSignatureError` or `InvalidTokenError`), reads `payload["sub"]`
(a missing claim raises `KeyError`, also caught as `none`), returns `none`
when the subject is not in `users_db`, and otherwise yields
`{username, is_admin: payload.get("is_admin", False)}`.  The function is
total: every failure is a caught exception returning `None`. -/
def verify_token (udb : List UserRec) (key : String) (now : Nat) (t : Token) :
    Option UserData :=
  match jwt_decode t key now with
  | DecodeResult.invalid => none
  | DecodeResult.expired => none
  | DecodeResult.ok p =>
    match p.sub with
    | none => none
    | some username =>
      match udb.find? (fun r => r.username == username) with
      | none => none
      | some _ => some ⟨username, p.is_admin.getD false⟩

end Auth

namespace Keys

/-- A record of the static `USERS` list of `keys.py`. -/
structure KeyUser where
  username : String
  api_key : String
  role : String
deriving DecidableEq

/-- The fixed in-memory API-key store (`keys.py`, `USERS`). -/
def USERS : List KeyUser :=
  [{ username := "admin", api_key := "asfd234U*(&*#@$@#$sf---)", role := "admin" },
   { username := "user1", api_key := "aasdfJLs13&^^%%^ads!!fs", role := "user" }]

/-- Embeds `is_valid_api_key(api_key)` (`keys.py`):
`any(user["api_key"] == api_key for user in USERS)`. -/
def is_valid_api_key (api_key : String) : Bool :=
  USERS.any (fun u => u.api_key == api_key)

/-- Embeds `is_admin(api_key)` (`keys.py`):
`any(user["api_key"] == api_key and user["role"] == "admin" for user in USERS)`. -/
def is_admin (api_key : String) : Bool :=
  USERS.any (fun u => u.api_key == api_key && u.role == "admin")

end Keys

/-! ## Helper lemmas -/

/-- After `DELETE WHERE id = pk`, no row with that id remains to be found. -/
theorem find?_filter_ne_id (l : List StudentRow) (id : Nat) :
    (l.filter (fun s => s.id != id)).find? (fun s => s.id == id) = none := by
  rw [List.find?_eq_none]
  intro x hx
  rw [List.mem_filter] at hx
  simpa using hx.2

/-- Fact: `jwt.decode` only ever returns the token's own payload. -/
theorem jwt_decode_ok_payload (t : Auth.Token) (key : String) (now : Nat)
    (p : Auth.JwtPayload) (h : Auth.jwt_decode t key now = Auth.DecodeResult.ok p) :
    p = t.payload := by
  unfold Auth.jwt_decode at h
  split at h
  · split at h
    · split at h
      · exact absurd h (by simp)
      · injection h with h
        exact h.symm
    · injection h with h
      exact h.symm
  · exact absurd h (by simp)

/-- A pydantic validation failure carries exactly the computed violations,
and at least one. -/
theorem validator_error_spec (d : StudentPayload) (es : List String)
    (h : BP.StudentValidator d = Except.error es) :
    es = BP.fieldErrors d ∧ es ≠ [] := by
  obtain ⟨f1, f2, f3, f4, f5⟩ := d
  cases f1 <;> cases f2 <;> cases f3 <;> cases f4 <;> cases f5 <;>
    simp only [BP.StudentValidator] at h <;>
    first
      | (injection h with h2
         subst h2
         exact ⟨rfl, by simp [BP.fieldErrors, BP.checkStr, BP.checkAge, List.append_eq_nil]⟩)
      | (split at h
         · exact absurd h (by simp)
         · next hne =>
             injection h with h2
             subst h2
             exact ⟨rfl, hne⟩)

/-! ## C10 -/

/-- C10: for every api_key string, `is_admin(api_key) = true` implies
`is_valid_api_key(api_key) = true` — the admin check is strictly stronger
than the validity check over the same `USERS` list. -/
theorem c10_admin_implies_valid (k : String) :
    Keys.is_admin k = true → Keys.is_valid_api_key k = true := by
  intro h
  simp only [Keys.is_admin, List.any_eq_true, Bool.and_eq_true, beq_iff_eq] at h
  obtain ⟨u, hu, h1, _⟩ := h
  simp only [Keys.is_valid_api_key, List.any_eq_true, beq_iff_eq]
  exact ⟨u, hu, h1⟩

/-- Witness for C10 at the admin's api key. -/
theorem c10_witness :
    Keys.is_admin "asfd234U*(&*#@$@#$sf---)" = true ∧
      Keys.is_valid_api_key "asfd234U*(&*#@$@#$sf---)" = true :=
  ⟨by decide, c10_admin_implies_valid "asfd234U*(&*#@$@#$sf---)" (by decide)⟩

/-! ## C7 -/

/-- C7: for every student id present in the database, deleting that id
(DELETE /api/student/{id}/delete) and then reading it
(GET /api/student/{id}) returns the not-found error response
`404 {"error": "Студент не найден"}`, for every database state. -/
theorem c7_delete_then_get (db : DB) (id : Nat)
    (h : (db.students.find? (fun s => s.id == id)).isSome) :
    App.get_student_by_id (App.delete_student db id).2 id =
      ⟨404, RespBody.error "Студент не найден"⟩ := by
  cases hf : db.students.find? (fun s => s.id == id) with
  | none => rw [hf] at h; simp at h
  | some s =>
    have h2 : (App.delete_student db id).2 =
        ⟨db.students.filter (fun s => s.id != id), db.groups⟩ := by
      simp [App.delete_student, hf]
    rw [h2]
    unfold App.get_student_by_id
    rw [show (DB.mk (db.students.filter (fun s => s.id != id)) db.groups).students.find?
        (fun s => s.id == id) = none from find?_filter_ne_id db.students id]

/-- Witness for C7: a one-student database. -/
theorem c7_witness :
    App.get_student_by_id
      (App.delete_student
        ⟨[{ id := 1, first_name := "Ivan", middle_name := none, last_name := "Ivanov"
            age := some 20, group := none }], []⟩ 1).2 1 =
      ⟨404, RespBody.error "Студент не найден"⟩ :=
  c7_delete_then_get
    ⟨[{ id := 1, first_name := "Ivan", middle_name := none, last_name := "Ivanov"
        age := some 20, group := none }], []⟩ 1 (by decide)

/-! ## C3 -/

/-- C3: for every username present in `users_db`, a token produced by
`generate_token(username)` and checked with `verify_token` strictly before
issuance-time + `JWT_EXPIRATION` yields the identity whose username is that
username and whose `is_admin` equals the stored user's; checked at or after
that instant, `verify_token` returns `none` (PyJWT raises
`ExpiredSignatureError` when `exp <= now`). -/
theorem c3_token_roundtrip_expiry (udb : List Auth.UserRec) (key : String)
    (cfgExp iat t : Nat) (u : Auth.UserRec)
    (h : udb.find? (fun r => r.username == u.username) = some u) :
    (t < iat + cfgExp →
      Auth.verify_token udb key t (Auth.generate_token udb key cfgExp iat u.username) =
        some ⟨u.username, u.is_admin⟩) ∧
    (iat + cfgExp ≤ t →
      Auth.verify_token udb key t (Auth.generate_token udb key cfgExp iat u.username) =
        none) := by
  constructor
  · intro ht
    simp [Auth.verify_token, Auth.generate_token, Auth.jwt_decode, h, Nat.not_le.mpr ht]
  · intro ht
    simp [Auth.verify_token, Auth.generate_token, Auth.jwt_decode, h, ht]

/-- Witness for C3: a one-user store, issuance at 0, expiration 3600,
checks at 10 (valid) and at 3600 (expired). -/
theorem c3_witness :
    Auth.verify_token [⟨"admin", "hash", true⟩] "secret" 10
        (Auth.generate_token [⟨"admin", "hash", true⟩] "secret" 3600 0 "admin") =
      some ⟨"admin", true⟩ ∧
    Auth.verify_token [⟨"admin", "hash", true⟩] "secret" 3600
        (Auth.generate_token [⟨"admin", "hash", true⟩] "secret" 3600 0 "admin") =
      none :=
  ⟨(c3_token_roundtrip_expiry [⟨"admin", "hash", true⟩] "secret" 3600 0 10
      ⟨"admin", "hash", true⟩ (by decide)).1 (by decide),
   (c3_token_roundtrip_expiry [⟨"admin", "hash", true⟩] "secret" 3600 0 3600
      ⟨"admin", "hash", true⟩ (by decide)).2 (by decide)⟩

/-! ## C5 -/

/-- C5: `verify_token(token)` returns `none` whenever the token's signature
was not produced with the configured secret key, or its expiry instant has
passed, or the decoded payload lacks the required `sub` claim; being a total
function, it raises no exception in any of these cases. -/
theorem c5_verify_fails_closed (udb : List Auth.UserRec) (key : String) (now : Nat)
    (t : Auth.Token) :
    (t.key ≠ key → Auth.verify_token udb key now t = none) ∧
    (∀ e, t.payload.exp = some e → e ≤ now → Auth.verify_token udb key now t = none) ∧
    (t.payload.sub = none → Auth.verify_token udb key now t = none) := by
  refine ⟨?_, ?_, ?_⟩
  · intro hk
    simp [Auth.verify_token, Auth.jwt_decode, hk]
  · intro e hexp hle
    by_cases hk : t.key = key
    · simp [Auth.verify_token, Auth.jwt_decode, hk, hexp, hle]
    · simp [Auth.verify_token, Auth.jwt_decode, hk]
  · intro hsub
    cases hd : Auth.jwt_decode t key now with
    | invalid => simp [Auth.verify_token, hd]
    | expired => simp [Auth.verify_token, hd]
    | ok p =>
      have hp := jwt_decode_ok_payload t key now p hd
      simp [Auth.verify_token, hd, hp, hsub]

/-- Witness for C5: a wrong-key token, an expired token, and a token without
a `sub` claim, each rejected. -/
theorem c5_witness :
    Auth.verify_token [⟨"admin", "hash", true⟩] "secret" 0
        ⟨⟨some "admin", some 100, none⟩, "wrong"⟩ = none ∧
    Auth.verify_token [⟨"admin", "hash", true⟩] "secret" 10
        ⟨⟨some "admin", some 5, none⟩, "secret"⟩ = none ∧
    Auth.verify_token [⟨"admin", "hash", true⟩] "secret" 0
        ⟨⟨none, some 100, none⟩, "secret"⟩ = none :=
  ⟨(c5_verify_fails_closed [⟨"admin", "hash", true⟩] "secret" 0
      ⟨⟨some "admin", some 100, none⟩, "wrong"⟩).1 (by decide),
   (c5_verify_fails_closed [⟨"admin", "hash", true⟩] "secret" 10
      ⟨⟨some "admin", some 5, none⟩, "secret"⟩).2.1 5 rfl (by decide),
   (c5_verify_fails_closed [⟨"admin", "hash", true⟩] "secret" 0
      ⟨⟨none, some 100, none⟩, "secret"⟩).2.2 rfl⟩

/-! ## C8 -/

/-- C8: `verify_token(token)` returns `none` whenever the decoded subject is
not a key of `users_db`, even when the signature is valid under the
configured key and the token is unexpired. -/
theorem c8_unknown_subject (udb : List Auth.UserRec) (key : String) (now : Nat)
    (t : Auth.Token) (u : String)
    (hk : t.key = key) (hsub : t.payload.sub = some u)
    (hexp : ∀ e, t.payload.exp = some e → now < e)
    (hu : udb.find? (fun r => r.username == u) = none) :
    Auth.verify_token udb key now t = none := by
  cases he : t.payload.exp with
  | none => simp [Auth.verify_token, Auth.jwt_decode, hk, he, hsub, hu]
  | some e =>
    have hlt := hexp e he
    simp [Auth.verify_token, Auth.jwt_decode, hk, he, hsub, hu, Nat.not_le.mpr hlt]

/-- Witness for C8: a well-signed unexpired token whose subject `"ghost"` is
not in the user store. -/
theorem c8_witness :
    Auth.verify_token [⟨"admin", "hash", true⟩] "secret" 0
        ⟨⟨some "ghost", some 100, some true⟩, "secret"⟩ = none :=
  c8_unknown_subject [⟨"admin", "hash", true⟩] "secret" 0
    ⟨⟨some "ghost", some 100, some true⟩, "secret"⟩ "ghost" rfl rfl
    (by intro e he; injection he with h; omega) (by decide)

/-! ## C1 -/

/-- C1 counterexample: against a database containing the group `"python411"`,
the blueprint variant of create-student rejects the example payload
(`middle_name` absent) with status 400 — it is required by
`StudentValidator` — so the operation does not succeed with 201 there. -/
theorem c1_counterexample :
    (BP.create_student ⟨[], [⟨1, "python411"⟩]⟩
        (some ⟨some "Ivan", none, some "Ivanov", some 20, some "python411"⟩)).1 =
      ⟨400, RespBody.errors ["middle_name: Field required"]⟩ ∧
    (BP.create_student ⟨[], [⟨1, "python411"⟩]⟩
        (some ⟨some "Ivan", none, some "Ivanov", some 20, some "python411"⟩)).1.status ≠ 201 := by
  constructor
  · rfl
  · decide

/-- C1 (amended): in the `app.py` variant, the example payload succeeds with
201 and the serialized student
`{id: assigned, name: "Ivan Ivanov", group: "python411", age: 20,
middle_name: null}`; the blueprint variant instead rejects the same payload
with 400 because its validator requires `middle_name`. -/
theorem c1_create_ivan (db : DB) (g : GroupRow)
    (h : findGroup db "python411" = some g) :
    (App.create_student db
        (some ⟨some "Ivan", none, some "Ivanov", some 20, some "python411"⟩)).1 =
      ⟨201, RespBody.student ⟨nextId db, "Ivan Ivanov", some "python411", some 20, none⟩⟩ ∧
    (BP.create_student db
        (some ⟨some "Ivan", none, some "Ivanov", some 20, some "python411"⟩)).1.status =
      400 := by
  constructor
  · have hg : g.group_name = "python411" := by
      have := List.find?_some h
      simpa using this
    simp [App.create_student, h, hg]
  · rfl

/-- Witness for C1 at a concrete one-group database. -/
theorem c1_witness :
    (App.create_student ⟨[], [⟨1, "python411"⟩]⟩
        (some ⟨some "Ivan", none, some "Ivanov", some 20, some "python411"⟩)).1 =
      ⟨201, RespBody.student ⟨1, "Ivan Ivanov", some "python411", some 20, none⟩⟩ ∧
    (BP.create_student ⟨[], [⟨1, "python411"⟩]⟩
        (some ⟨some "Ivan", none, some "Ivanov", some 20, some "python411"⟩)).1.status =
      400 :=
  c1_create_ivan ⟨[], [⟨1, "python411"⟩]⟩ ⟨1, "python411"⟩ (by decide)

/-! ## C2 -/

/-- C2 counterexample: the apiflask variant (`api/routes/students.py`)
resolves the group by numeric id and, when it does not exist, responds with
status **400** — whatever text `str(e)` renders to, here instantiated with
one concrete renderer — not a 404-class not-found response (and it inserts
nothing: the database comes back unchanged). -/
theorem c2_counterexample :
    (ApiR.create_student (fun _ => "") ⟨[], []⟩
        ⟨"Ivan", "Ivanov", none, none, some 5⟩).1.status = 400 ∧
    (ApiR.create_student (fun _ => "") ⟨[], []⟩
        ⟨"Ivan", "Ivanov", none, none, some 5⟩).1.status ≠ 404 ∧
    (ApiR.create_student (fun _ => "") ⟨[], []⟩
        ⟨"Ivan", "Ivanov", none, none, some 5⟩).2 = ⟨[], []⟩ := by
  refine ⟨rfl, by decide, rfl⟩

/-- C2 (amended): a create-student request referencing a non-existent group
fails without inserting a row (the database is returned unchanged) in every
variant.  The `app.py` and blueprint variants (group by name) return 404;
the apiflask variant (group by numeric id) returns 400 — for a non-zero
missing id its inner `abort(400, "Группа с ID … не найдена")` is caught by
the handler's own `except Exception` and re-wrapped as
`"Ошибка при создании студента: " + str(e)`, and for id 0 the skipped check
leads to a `DoesNotExist` while serializing the foreign key, a transaction
rollback, and the same wrapped 400 — for every rendering `sr` of `str(e)`. -/
theorem c2_missing_group_no_insert :
    (∀ (db : DB) (d : StudentPayload) (gname : String),
        d.group = some gname → findGroup db gname = none →
        App.create_student db (some d) =
          (⟨404, RespBody.error "Группа не найдена"⟩, db)) ∧
    (∀ (db : DB) (d : StudentPayload) (v : BP.ValidStudent),
        BP.StudentValidator d = Except.ok v → findGroup db v.group = none →
        BP.create_student db (some d) =
          (⟨404, RespBody.error "Группа не найдена"⟩, db)) ∧
    (∀ (sr : ApiR.ApiErr → String) (db : DB) (d : ApiR.ApiStudentPayload) (gid : Nat),
        d.group_id = some gid → gid ≠ 0 → findGroupById db gid = none →
        ApiR.create_student sr db d =
          (⟨400, RespBody.error ("Ошибка при создании студента: " ++
              sr (ApiR.ApiErr.httpError 400
                ("Группа с ID " ++ toString gid ++ " не найдена")))⟩, db)) ∧
    (∀ (sr : ApiR.ApiErr → String) (db : DB) (d : ApiR.ApiStudentPayload),
        d.group_id = some 0 → findGroupById db 0 = none →
        ApiR.create_student sr db d =
          (⟨400, RespBody.error ("Ошибка при создании студента: " ++
              sr ApiR.ApiErr.doesNotExist)⟩, db)) := by
  refine ⟨?_, ?_, ?_, ?_⟩
  · intro db d gname h1 h2
    simp [App.create_student, h1, h2]
  · intro db d v h1 h2
    simp [BP.create_student, h1, h2]
  · intro sr db d gid h1 h2 h3
    simp [ApiR.create_student, ApiR.create_student_body, h1, h2, h3]
  · intro sr db d h1 h2
    simp only [findGroupById] at h2
    simp [ApiR.create_student, ApiR.create_student_body, ApiR.insertStudent,
      findGroupById, h1, h2]

/-- Witness for C2: concrete instances of all four conjuncts on an empty
database, the `str(e)` renderer instantiated with a constant function. -/
theorem c2_witness :
    App.create_student ⟨[], []⟩
        (some ⟨some "Ivan", none, some "Ivanov", some 20, some "nope"⟩) =
      (⟨404, RespBody.error "Группа не найдена"⟩, ⟨[], []⟩) ∧
    BP.create_student ⟨[], []⟩
        (some ⟨some "Ivan", some "Petrovich", some "Ivanov", some 20, some "nope"⟩) =
      (⟨404, RespBody.error "Группа не найдена"⟩, ⟨[], []⟩) ∧
    ApiR.create_student (fun _ => "E") ⟨[], []⟩ ⟨"Ivan", "Ivanov", none, none, some 7⟩ =
      (⟨400, RespBody.error ("Ошибка при создании студента: " ++
          (fun _ => "E") (ApiR.ApiErr.httpError 400
            ("Группа с ID " ++ toString 7 ++ " не найдена")))⟩, ⟨[], []⟩) ∧
    ApiR.create_student (fun _ => "E") ⟨[], []⟩ ⟨"Ivan", "Ivanov", none, none, some 0⟩ =
      (⟨400, RespBody.error ("Ошибка при создании студента: " ++
          (fun _ => "E") ApiR.ApiErr.doesNotExist)⟩, ⟨[], []⟩) :=
  ⟨c2_missing_group_no_insert.1 ⟨[], []⟩ _ "nope" rfl rfl,
   c2_missing_group_no_insert.2.1 ⟨[], []⟩ _ ⟨"Ivan", "Ivanov", "Petrovich", 20, "nope"⟩
     (by rfl) rfl,
   c2_missing_group_no_insert.2.2.1 (fun _ => "E") ⟨[], []⟩ _ 7 rfl (by decide) rfl,
   c2_missing_group_no_insert.2.2.2 (fun _ => "E") ⟨[], []⟩ _ rfl rfl⟩

/-! ## C6 -/

/-- C6 counterexample: an update request whose payload violates the
constraints (age 200 > 120) but whose target id is absent returns 404
`"Студент не найден"`, not a 400 response listing the violations (the
database is still untouched). -/
theorem c6_counterexample :
    BP.update_student ⟨[], []⟩ 1
        (some ⟨some "Ivan", some "Petrovich", some "Ivanov", some 200, some "python411"⟩) =
      (⟨404, RespBody.error "Студент не найден"⟩, ⟨[], []⟩) ∧
    (BP.update_student ⟨[], []⟩ 1
        (some ⟨some "Ivan", some "Petrovich", some "Ivanov", some 200, some "python411"⟩)).1.status ≠
      400 := by
  constructor
  · rfl
  · decide

/-- C6 (amended): a create request whose payload fails the declarative
constraints is answered with 400 enumerating the (non-empty) violations and
leaves the database unchanged; so is an update request whose target id
exists; an update request for an absent id returns 404 without reading the
payload — and in every case an update with a violating payload performs no
database write. -/
theorem c6_validation_before_write :
    (∀ (db : DB) (d : StudentPayload) (es : List String),
        BP.StudentValidator d = Except.error es →
        BP.create_student db (some d) = (⟨400, RespBody.errors es⟩, db) ∧ es ≠ []) ∧
    (∀ (db : DB) (id : Nat) (d : StudentPayload) (es : List String),
        (db.students.find? (fun s => s.id == id)).isSome →
        BP.StudentValidator d = Except.error es →
        BP.update_student db id (some d) = (⟨400, RespBody.errors es⟩, db) ∧ es ≠ []) ∧
    (∀ (db : DB) (id : Nat) (d : StudentPayload) (es : List String),
        BP.StudentValidator d = Except.error es →
        (BP.update_student db id (some d)).2 = db) := by
  refine ⟨?_, ?_, ?_⟩
  · intro db d es h
    exact ⟨by simp [BP.create_student, h], (validator_error_spec d es h).2⟩
  · intro db id d es hfind h
    cases hf : db.students.find? (fun s => s.id == id) with
    | none => rw [hf] at hfind; simp at hfind
    | some s =>
      exact ⟨by simp [BP.update_student, hf, h], (validator_error_spec d es h).2⟩
  · intro db id d es h
    cases hf : db.students.find? (fun s => s.id == id) with
    | none => simp [BP.update_student, hf]
    | some s => simp [BP.update_student, hf, h]

/-- Witness for C6: a payload with a too-short first name, a missing middle
name and an out-of-range age, rejected by create with all three violations
and by update (absent id) without a write. -/
theorem c6_witness :
    BP.create_student ⟨[], [⟨1, "python411"⟩]⟩
        (some ⟨some "Iv", none, some "Ivanov", some 200, some "python411"⟩) =
      (⟨400, RespBody.errors
          ["first_name: String should have at least 3 characters",
           "middle_name: Field required",
           "age: Input should be less than or equal to 120"]⟩,
       ⟨[], [⟨1, "python411"⟩]⟩) ∧
    ["first_name: String should have at least 3 characters",
     "middle_name: Field required",
     "age: Input should be less than or equal to 120"] ≠ ([] : List String) :=
  (c6_validation_before_write.1 ⟨[], [⟨1, "python411"⟩]⟩
    ⟨some "Iv", none, some "Ivanov", some 200, some "python411"⟩
    ["first_name: String should have at least 3 characters",
     "middle_name: Field required",
     "age: Input should be less than or equal to 120"] (by rfl))

/-! ## C4 -/

/-- C4 counterexample: with `filter=python411` (an existing group) and the
unrecognized sort parameter `bogus`, the handler does return 400, but the
`Group.get` lookup for the filter has already executed — the executed-query
trace is not empty — so "executes no database query" fails when a `filter`
parameter is present. -/
theorem c4_counterexample :
    (get_students ⟨[], [⟨1, "python411"⟩]⟩ (some "bogus") none
        (some "python411")).1.status = 400 ∧
    (get_students ⟨[], [⟨1, "python411"⟩]⟩ (some "bogus") none
        (some "python411")).2 = [Query.groupGet "python411"] := ⟨rfl, rfl⟩

/-- C4 (amended): when no `filter` parameter is supplied, a non-empty sort
parameter outside {last_name, age, group} makes the read-many handler return
400 `"Некорректный параметр сортировки"` having executed no database query;
when a filter is present, a group-lookup query executes before that check
(and a non-existent filter group yields 404 instead). -/
theorem c4_bad_sort_no_query (db : DB) (order : Option String) (p : String)
    (hne : p ≠ "") (h1 : p ≠ "last_name") (h2 : p ≠ "age") (h3 : p ≠ "group") :
    get_students db (some p) order none =
      (⟨400, RespBody.error "Некорректный параметр сортировки"⟩, []) := by
  simp [get_students, get_students_rest, truthyOpt, sortFieldOf, hne, h1, h2, h3]

/-- Witness for C4 at `param=bogus` on an empty database. -/
theorem c4_witness :
    get_students ⟨[], []⟩ (some "bogus") none none =
      (⟨400, RespBody.error "Некорректный параметр сортировки"⟩, []) :=
  c4_bad_sort_no_query ⟨[], []⟩ none "bogus" (by decide) (by decide) (by decide)
    (by decide)

/-! ## C9 -/

/-- Any `order` whose lowercase form is not `"desc"` behaves exactly like
`"asc"` in the post-filter stage of `get_students`. -/
theorem get_students_rest_not_desc (db : DB) (rows : List StudentRow)
    (popt : Option String) (tr : List Query) (ord : String)
    (h : strLower ord ≠ "desc") :
    get_students_rest db rows popt ord tr = get_students_rest db rows popt "asc" tr := by
  have hb : (strLower ord == "desc") = false := beq_eq_false_iff_ne.mpr h
  have hb2 : (strLower "asc" == "desc") = false := by decide
  cases popt with
  | none => rfl
  | some p =>
    cases hf : sortFieldOf p with
    | none => simp only [get_students_rest, hf]
    | some f => simp only [get_students_rest, hf, hb, hb2]

/-- The status of the post-filter stage never depends on the `order` value. -/
theorem get_students_rest_status_eq (db : DB) (rows : List StudentRow)
    (popt : Option String) (tr : List Query) (o1 o2 : String) :
    (get_students_rest db rows popt o1 tr).1.status =
      (get_students_rest db rows popt o2 tr).1.status := by
  cases popt with
  | none => rfl
  | some p =>
    cases hf : sortFieldOf p with
    | none => simp only [get_students_rest, hf]
    | some f => simp only [get_students_rest, hf]

/-- C9: in the read-many operation, every `order` value whose lowercase form
is not `"desc"` is treated as ascending — the response is identical to the
one for `order=asc` — and the `order` value never changes the response
status, so no value of it is rejected as a client error; only the
case-insensitive string `"desc"` selects descending order. -/
theorem c9_order_param (db : DB) (param filter : Option String) (order : String) :
    (strLower order ≠ "desc" →
      get_students db param (some order) filter =
        get_students db param (some "asc") filter) ∧
    (get_students db param (some order) filter).1.status =
      (get_students db param (some "asc") filter).1.status := by
  constructor
  · intro h
    simp only [get_students, Option.getD_some]
    cases ht : truthyOpt filter with
    | none =>
      exact get_students_rest_not_desc db db.students (truthyOpt param) [] order h
    | some f =>
      cases hg : findGroup db f with
      | none => simp only [hg]
      | some g =>
        simp only [hg]
        exact get_students_rest_not_desc db _ (truthyOpt param) [Query.groupGet f] order h
  · simp only [get_students, Option.getD_some]
    cases ht : truthyOpt filter with
    | none =>
      exact get_students_rest_status_eq db db.students (truthyOpt param) [] order "asc"
    | some f =>
      cases hg : findGroup db f with
      | none => simp only [hg]
      | some g =>
        simp only [hg]
        exact get_students_rest_status_eq db _ (truthyOpt param) [Query.groupGet f] order "asc"

/-- Witness for C9 at the (misspelled) order value `"total"`. -/
theorem c9_witness :
    get_students ⟨[], []⟩ none (some "total") none =
      get_students ⟨[], []⟩ none (some "asc") none ∧
    (get_students ⟨[], []⟩ none (some "total") none).1.status =
      (get_students ⟨[], []⟩ none (some "asc") none).1.status :=
  ⟨(c9_order_param ⟨[], []⟩ none none "total").1 (by decide),
   (c9_order_param ⟨[], []⟩ none none "total").2⟩
